import Mathlib

/-!
Verification of the serper long-running task orchestrator specification
against the repository's sources.

The frontend observer code is embedded from
`src/web/static/js/chat.js` and
`src/frontend/src/components/chat/task-progress-popup.tsx`.
The backend orchestrator (task store, executor, cancellation controller,
human-in-loop gate) is not present in the repository snapshot, so its
operations are modelled from the specification text, as marked on each
definition.
-/

namespace Serper

/-! ## Frontend observer model (from source) -/

/-- Which dispatch branch of a client's `onmessage` handler fires for an
inbound envelope `type` tag.  `unhandled` means the envelope falls through
every comparison in the handler chain. -/
inductive Branch
  | updateTask
  | removeMsg
  | appendMsg
  | statusUpdate
  | unhandled
deriving DecidableEq, Repr

/-- The seven outbound envelope types enumerated by the streaming surface. -/
def outboundTypes : List String :=
  ["task_update", "remove_message", "system", "user", "assistant", "error", "thinking"]

/-- Dispatch chain of `ChatInterface`'s `onmessage`
(`src/frontend/src/components/chat/task-progress-popup.tsx`, lines 156-182):
`task_update`, then `remove_message`, then membership of the five chat kinds. -/
def chatInterfaceBranch (ty : String) : Branch :=
  if ty == "task_update" then .updateTask
  else if ty == "remove_message" then .removeMsg
  else if ["system", "user", "assistant", "error", "thinking"].contains ty then .appendMsg
  else .unhandled

/-- Dispatch chain of the legacy observer (`src/web/static/js/chat.js`,
lines 73-85): four chat kinds, then `status`, then `task_update`. -/
def chatJsBranch (ty : String) : Branch :=
  if ty == "system" || ty == "assistant" || ty == "error" || ty == "thinking" then .appendMsg
  else if ty == "status" then .statusUpdate
  else if ty == "task_update" then .updateTask
  else .unhandled

/-- A displayed chat message
(`Message` in `src/frontend/src/components/chat/task-progress-popup.tsx`). -/
structure Message where
  id : String
  type : String
  content : String
  timestamp : String
deriving DecidableEq, Repr

/-- The `remove_message` handler
(`setMessages(prev => prev.filter(msg => msg.id !== data.message_id))`,
`task-progress-popup.tsx` line 173). -/
def removeMessage (msgs : List Message) (message_id : String) : List Message :=
  msgs.filter (fun m => m.id != message_id)

/-- The `task_update` payload kept as the active task
(`TaskUpdate` in `task-progress-popup.tsx`). -/
structure TaskUpdate where
  task_id : String
  progress : Int
  status : String
  task_type : Option String
deriving DecidableEq, Repr

/-- An outbound client-to-server control envelope. -/
structure OutEnvelope where
  type : String
  task_id : String
deriving DecidableEq, Repr

/-- The cancel handler: `chat.js` lines 146-156 sends one
`{type: cancel_task, task_id: activeTaskId}` envelope only when an active
task id is set and the socket is open; `handleCancelTask` in
`task-progress-popup.tsx` (lines 229-243) has the same guard shape.
The result is the list of envelopes put on the wire. -/
def handleCancelTask (activeTask : Option TaskUpdate) (socketOpen : Bool) :
    List OutEnvelope :=
  match activeTask, socketOpen with
  | some t, true => [{ type := "cancel_task", task_id := t.task_id }]
  | _, _ => []

/-- Visibility of the Cancel control in `TaskProgressPopup`
(`task.progress > 0 && task.progress < 100`,
`task-progress-popup.tsx` line 77). -/
def cancelVisible (progress : Int) : Bool :=
  decide (0 < progress) && decide (progress < 100)

/-! ## Orchestrator model (modelled from the spec) -/

/-- Modelled from the spec: the seven task statuses of the data model
(section 3, Task.status). -/
inductive TaskStatus
  | pending
  | running
  | waitingForHuman
  | paused
  | completed
  | failed
  | cancelled
deriving DecidableEq, Repr

/-- Modelled from the spec: a task record (section 3).  The fields not
bearing on the claims (type, description, timestamps) are omitted. -/
structure Task where
  id : Nat
  status : TaskStatus
  progress : Int
  cancelRequested : Bool
deriving DecidableEq, Repr

/-- Modelled from the spec: the error taxonomy of section 7. -/
inductive OrchError
  | notFound
  | conflict
  | invalidState
  | invalidResponseKind
deriving DecidableEq, Repr

/-- Modelled from the spec: a freshly created task is `pending` at
progress `0` with no cancellation requested. -/
def newTask (id : Nat) : Task :=
  { id := id, status := .pending, progress := 0, cancelRequested := false }

/-- Modelled from the spec: the Executor "clamps `p` to `[0,100]`, rejects
decreasing values by clamping to the prior value" (section 4.4). -/
def clampProgress (prior p : Int) : Int :=
  max prior (min 100 (max 0 p))

/-- Modelled from the spec: `emitProgress` applies the clamp while the task
is `running` (section 4.4). -/
def emitProgress (t : Task) (p : Int) : Task :=
  if t.status = .running then { t with progress := clampProgress t.progress p } else t

/-- Modelled from the spec: `resume` is allowed from `paused` or from a
prior `failed` state, "re-queuing progress at `0` if `progress < 0`"
(section 4.4); resuming a `cancelled` task fails with `InvalidState`
(section 4.2), as does any other non-resumable status (section 6). -/
def resume (t : Task) : Except OrchError Task :=
  match t.status with
  | .paused =>
      .ok { t with status := .running,
                   progress := if t.progress < 0 then 0 else t.progress }
  | .failed =>
      .ok { t with status := .running,
                   progress := if t.progress < 0 then 0 else t.progress }
  | _ => .error .invalidState

/-- Modelled from the spec: the mutations a task record undergoes through
the store's mutation API (sections 4.2-4.4): start of execution, progress
emission, completion (`progress=100`), body failure (`progress=-1`),
cancellation request, cooperative cancellation at a checkpoint
(`progress=-1`), suspension for a human decision, gate resolution back to
`running` or directly to `cancelled` on `ignore`, pause, and resume. -/
inductive TaskStep : Task → Task → Prop
  | start (t : Task) : t.status = .pending → TaskStep t { t with status := .running }
  | emit (t : Task) (p : Int) : t.status = .running → TaskStep t (emitProgress t p)
  | complete (t : Task) : t.status = .running →
      TaskStep t { t with status := .completed, progress := 100 }
  | bodyFail (t : Task) : t.status = .running →
      TaskStep t { t with status := .failed, progress := -1 }
  | requestCancel (t : Task) : TaskStep t { t with cancelRequested := true }
  | cancelAtCheckpoint (t : Task) : t.status = .running → t.cancelRequested = true →
      TaskStep t { t with status := .cancelled, progress := -1 }
  | suspendForHuman (t : Task) : t.status = .running →
      TaskStep t { t with status := .waitingForHuman }
  | gateResolveResume (t : Task) : t.status = .waitingForHuman →
      TaskStep t { t with status := .running }
  | gateResolveIgnore (t : Task) : t.status = .waitingForHuman →
      TaskStep t { t with status := .cancelled, progress := -1 }
  | pause (t : Task) : t.status = .running → TaskStep t { t with status := .paused }
  | resumeOk (t t' : Task) : resume t = .ok t' → TaskStep t t'

/-- Modelled from the spec: the task states observable at the store, i.e.
reachable from creation through the mutation steps. -/
inductive ReachableTask : Task → Prop
  | init (id : Nat) : ReachableTask (newTask id)
  | step {t t' : Task} : ReachableTask t → TaskStep t t' → ReachableTask t'

/-- The status/progress consistency invariant of section 3. -/
def TaskInv (t : Task) : Prop :=
  (t.status = .completed → t.progress = 100) ∧
  (t.status = .failed → t.progress = -1) ∧
  (t.status = .cancelled → t.progress = -1)

/-- Modelled from the spec: the resolution kinds of a human-in-loop
request (section 3, `allowedResponses`). -/
inductive ResponseKind
  | accept
  | edit
  | respond
  | ignore
deriving DecidableEq, Repr

/-- Modelled from the spec: a human-in-loop request's lifecycle state. -/
inductive ReqStatus
  | waiting
  | resolved
deriving DecidableEq, Repr

/-- Modelled from the spec: a `HumanLoopRequest` record (section 3). -/
structure HumanLoopRequest where
  id : Nat
  taskId : Nat
  actionName : String
  args : List (String × String)
  allowedResponses : List ResponseKind
  status : ReqStatus
deriving DecidableEq, Repr

/-- Modelled from the spec: the Human-in-Loop Gate's state, the table of
requests plus an id counter. -/
structure GateState where
  requests : List HumanLoopRequest
  nextId : Nat
deriving DecidableEq, Repr

/-- Whether the gate holds an open (waiting) request for `taskId`. -/
def hasOpen (g : GateState) (taskId : Nat) : Bool :=
  g.requests.any (fun r => r.taskId == taskId && r.status == ReqStatus.waiting)

/-- Number of open requests the gate holds for `tid`. -/
def openCount (g : GateState) (tid : Nat) : Nat :=
  g.requests.countP (fun r => r.taskId == tid && r.status == ReqStatus.waiting)

/-- Modelled from the spec: `open(taskId, actionName, args,
allowedResponses)` "fails with `Conflict` if a request is already open for
that task" (section 4.3), otherwise records a new `waiting` request. -/
def openRequest (g : GateState) (taskId : Nat) (action : String)
    (args : List (String × String)) (allowed : List ResponseKind) :
    Except OrchError (GateState × HumanLoopRequest) :=
  if hasOpen g taskId then .error .conflict
  else
    let r : HumanLoopRequest :=
      { id := g.nextId, taskId := taskId, actionName := action,
        args := args, allowedResponses := allowed, status := .waiting }
    .ok ({ requests := g.requests ++ [r], nextId := g.nextId + 1 }, r)

/-- Modelled from the spec: `resolve(requestId, kind, payload)` requires
`kind` to be "a member of the request's `allowedResponses`, else fails with
`InvalidResponseKind`" (section 4.3); on success the request moves
`waiting → resolved`. -/
def resolveRequest (g : GateState) (reqId : Nat) (kind : ResponseKind) :
    Except OrchError GateState :=
  match g.requests.find? (fun r => r.id == reqId && r.status == ReqStatus.waiting) with
  | none => .error .notFound
  | some r =>
      if kind ∈ r.allowedResponses then
        .ok { g with requests :=
                g.requests.map (fun q =>
                  if q.id == reqId then { q with status := .resolved } else q) }
      else .error .invalidResponseKind

/-- Modelled from the spec: gate states reachable from an empty gate
through successful `open` and `resolve` calls. -/
inductive GateReachable : GateState → Prop
  | init : GateReachable { requests := [], nextId := 0 }
  | openStep {g g' : GateState} {r : HumanLoopRequest} {tid : Nat} {a : String}
      {args : List (String × String)} {allowed : List ResponseKind} :
      GateReachable g → openRequest g tid a args allowed = .ok (g', r) →
      GateReachable g'
  | resolveStep {g g' : GateState} {rid : Nat} {k : ResponseKind} :
      GateReachable g → resolveRequest g rid k = .ok g' → GateReachable g'

/-- A concrete open request, used to exhibit reachable gate states. -/
def rExample : HumanLoopRequest :=
  { id := 0, taskId := 5, actionName := "approve", args := [],
    allowedResponses := [.accept], status := .waiting }

/-- A concrete reachable gate state holding one open request for task 5. -/
def gExample : GateState :=
  { requests := [rExample], nextId := 1 }

/-! ## Theorems -/

/-- C7 (counterexample): the claim that every enumerated outbound type is
handled by the connected observer's dispatch fails for the `chat.js`
dispatch chain, which lets a `user` envelope fall through unhandled. -/
theorem dispatch_covers_cex :
    "user" ∈ outboundTypes ∧ chatJsBranch "user" = Branch.unhandled := by
  decide

/-- C7 (amended): the React `ChatInterface` dispatch handles all seven
enumerated outbound envelope types (active-task update, message removal,
or chat append), while the legacy `chat.js` dispatch handles `system`,
`assistant`, `error`, `thinking` and `task_update` but lets `user` and
`remove_message` envelopes fall through unhandled. -/
theorem dispatch_covers :
    (∀ ty ∈ outboundTypes, chatInterfaceBranch ty ≠ Branch.unhandled) ∧
    chatInterfaceBranch "task_update" = Branch.updateTask ∧
    chatInterfaceBranch "remove_message" = Branch.removeMsg ∧
    (∀ ty ∈ ["system", "user", "assistant", "error", "thinking"],
      chatInterfaceBranch ty = Branch.appendMsg) ∧
    (∀ ty ∈ ["system", "assistant", "error", "thinking"],
      chatJsBranch ty = Branch.appendMsg) ∧
    chatJsBranch "task_update" = Branch.updateTask ∧
    chatJsBranch "user" = Branch.unhandled ∧
    chatJsBranch "remove_message" = Branch.unhandled := by
  decide

/-- C7 witness: the amended coverage theorem applied at the `thinking`
envelope type. -/
theorem dispatch_covers_witness :
    chatInterfaceBranch "thinking" ≠ Branch.unhandled :=
  dispatch_covers.1 "thinking" (by decide)

/-- C8: handling a `remove_message` event keeps the displayed messages in
their original order (sublist), keeps exactly the messages whose id differs
from the given id, and removes every occurrence of messages carrying the
given id. -/
theorem removeMessage_exact (msgs : List Message) (mid : String) :
    (removeMessage msgs mid).Sublist msgs ∧
    (∀ m : Message, m ∈ removeMessage msgs mid ↔ m ∈ msgs ∧ m.id ≠ mid) ∧
    (∀ m : Message, m.id ≠ mid →
      (removeMessage msgs mid).count m = msgs.count m) ∧
    (∀ m : Message, m.id = mid → (removeMessage msgs mid).count m = 0) := by
  refine ⟨List.filter_sublist msgs, ?_, ?_, ?_⟩
  · intro m
    simp [removeMessage, List.mem_filter]
  · intro m hm
    exact List.count_filter (by simpa using hm)
  · intro m hm
    rw [List.count_eq_zero]
    intro hmem
    rcases List.mem_filter.mp hmem with ⟨_, hpred⟩
    simp [hm] at hpred

/-- C8 witness: removing id `"a"` from a concrete three-message list. -/
theorem removeMessage_exact_witness :
    ⟨"b", "assistant", "hi", "t1"⟩ ∈
      removeMessage
        [⟨"a", "user", "x", "t0"⟩, ⟨"b", "assistant", "hi", "t1"⟩,
         ⟨"a", "thinking", "y", "t2"⟩] "a" :=
  (removeMessage_exact _ "a").2.1 _ |>.mpr (by decide)

/-- C9: the cancel handler sends exactly one
`{type: cancel_task, task_id}` envelope naming the active task when a task
is active and the socket is open, and sends nothing otherwise. -/
theorem handleCancelTask_sends (a : Option TaskUpdate) (s : Bool) :
    (∀ t : TaskUpdate, a = some t → s = true →
      handleCancelTask a s = [{ type := "cancel_task", task_id := t.task_id }]) ∧
    ((a = none ∨ s = false) → handleCancelTask a s = []) := by
  constructor
  · rintro t rfl rfl
    rfl
  · rintro (rfl | rfl)
    · rfl
    · cases a <;> rfl

/-- C9 witness: the cancel handler applied with an active task over an open
socket. -/
theorem handleCancelTask_sends_witness :
    handleCancelTask
        (some { task_id := "t1", progress := 5, status := "running",
                task_type := none }) true
      = [{ type := "cancel_task", task_id := "t1" }] :=
  (handleCancelTask_sends _ true).1 _ rfl rfl

/-- C10: the popup's Cancel control is rendered exactly when the reported
progress is strictly between 0 and 100; in particular it is hidden at
progress 0, at progress 100, and at any negative progress. -/
theorem cancelVisible_iff (p : Int) :
    (cancelVisible p = true ↔ 0 < p ∧ p < 100) ∧
    cancelVisible 0 = false ∧ cancelVisible 100 = false ∧
    (p < 0 → cancelVisible p = false) := by
  refine ⟨?_, by decide, by decide, ?_⟩
  · simp [cancelVisible]
  · intro h
    simp [cancelVisible]
    omega

/-- C10 witness: the visibility characterisation applied at progress 50. -/
theorem cancelVisible_iff_witness : cancelVisible 50 = true :=
  (cancelVisible_iff 50).1.mpr (by decide)

/-- C3: `resume` on a cancelled task fails with `InvalidState` and returns
no successor state, leaving the task unchanged. -/
theorem resume_cancelled_invalid (t : Task) (h : t.status = .cancelled) :
    resume t = .error .invalidState ∧ ∀ t' : Task, resume t ≠ .ok t' := by
  have herr : resume t = .error .invalidState := by
    unfold resume
    rw [h]
  exact ⟨herr, fun t' hok => by rw [herr] at hok; exact Except.noConfusion hok⟩

/-- C3 witness: resuming a concrete cancelled task. -/
theorem resume_cancelled_invalid_witness :
    resume { id := 0, status := .cancelled, progress := -1, cancelRequested := false }
      = .error .invalidState :=
  (resume_cancelled_invalid _ rfl).1

/-- C4: `resume` on a failed task (progress `-1`) succeeds, re-queuing it
as `running` with progress reset to `0`; `resume` on a paused task with
non-negative progress succeeds as `running` without resetting progress. -/
theorem resume_failed_paused (t : Task) :
    (t.status = .failed → t.progress = -1 →
      resume t = .ok { t with status := .running, progress := 0 }) ∧
    (t.status = .paused → 0 ≤ t.progress →
      resume t = .ok { t with status := .running }) := by
  constructor
  · intro hs hp
    unfold resume
    rw [hs]
    simp [hp]
  · intro hs hp
    unfold resume
    rw [hs]
    simp [not_lt.mpr hp]

/-- C4 witness: resuming a concrete failed task yields a running task at
progress zero. -/
theorem resume_failed_paused_witness :
    resume { id := 1, status := .failed, progress := -1, cancelRequested := false }
      = .ok { id := 1, status := .running, progress := 0, cancelRequested := false } :=
  (resume_failed_paused _).1 rfl rfl

/-- A successful `resume` always lands in a `running` state, so the
status/progress consistency invariant holds at its result. -/
lemma resume_ok_inv {t t' : Task} (hok : resume t = .ok t') : TaskInv t' := by
  unfold resume at hok
  cases hst : t.status <;> rw [hst] at hok <;>
    first
      | exact Except.noConfusion hok
      | (injection hok with hok; rw [← hok]; simp [TaskInv])

/-- C1: every task state reachable from creation through the modelled
mutations satisfies the status/progress consistency invariant:
`completed ⇒ progress = 100`, `failed ⇒ progress = -1`,
`cancelled ⇒ progress = -1`. -/
theorem task_status_progress_consistent (t : Task) (h : ReachableTask t) :
    TaskInv t := by
  induction h with
  | init id => simp [TaskInv, newTask]
  | step hr hs ih =>
    cases hs with
    | start hst => simp [TaskInv]
    | emit p hst => simp [TaskInv, emitProgress, hst]
    | complete hst => simp [TaskInv]
    | bodyFail hst => simp [TaskInv]
    | requestCancel => exact ih
    | cancelAtCheckpoint hst hc => simp [TaskInv]
    | suspendForHuman hst => simp [TaskInv]
    | gateResolveResume hst => simp [TaskInv]
    | gateResolveIgnore hst => simp [TaskInv]
    | pause hst => simp [TaskInv]
    | resumeOk t2 hok => exact resume_ok_inv hok

/-- C1 witness: the invariant holds at a freshly created task. -/
theorem task_status_progress_consistent_witness : TaskInv (newTask 0) :=
  task_status_progress_consistent (newTask 0) (ReachableTask.init 0)

/-- The clamp never decreases the prior progress value. -/
lemma le_clampProgress (a b : Int) : a ≤ clampProgress a b :=
  le_max_left _ _

/-- The clamp keeps a progress value inside `[0, 100]`. -/
lemma clampProgress_bounds {a : Int} (h0 : 0 ≤ a) (h1 : a ≤ 100) (b : Int) :
    0 ≤ clampProgress a b ∧ clampProgress a b ≤ 100 := by
  unfold clampProgress
  exact ⟨le_trans h0 (le_max_left _ _), max_le h1 (min_le_left _ _)⟩

/-- The trace of progress values produced by successive clamped emissions
is non-decreasing. -/
lemma chain'_scanl_clamp (l : List Int) : ∀ a : Int,
    List.Chain' (· ≤ ·) (List.scanl clampProgress a l) := by
  induction l with
  | nil =>
    intro a
    simp [List.scanl]
  | cons b l ih =>
    intro a
    rw [List.scanl_cons, List.singleton_append, List.chain'_cons']
    refine ⟨?_, ih (clampProgress a b)⟩
    intro y hy
    rw [List.head?_eq_getElem?, List.getElem?_scanl_zero, Option.mem_def,
      Option.some_inj] at hy
    rw [← hy]
    exact le_clampProgress a b

/-- Every value in a clamped emission trace started inside `[0, 100]`
stays inside `[0, 100]`. -/
lemma scanl_clamp_mem_bounds (l : List Int) : ∀ a : Int, 0 ≤ a → a ≤ 100 →
    ∀ q ∈ List.scanl clampProgress a l, 0 ≤ q ∧ q ≤ 100 := by
  induction l with
  | nil =>
    intro a h0 h1 q hq
    rw [List.scanl_nil, List.mem_singleton] at hq
    rw [hq]
    exact ⟨h0, h1⟩
  | cons b l ih =>
    intro a h0 h1 q hq
    rw [List.scanl_cons, List.singleton_append, List.mem_cons] at hq
    rcases hq with rfl | hq'
    · exact ⟨h0, h1⟩
    · exact ih (clampProgress a b) (clampProgress_bounds h0 h1 b).1
        (clampProgress_bounds h0 h1 b).2 q hq'

/-- C2: while a task is running with progress in `[0, 100]`, the progress
values observed across any sequence of `emitProgress` calls form a
non-decreasing trace that stays within `[0, 100]`; an emission below the
prior progress leaves the prior value, and an in-range emission at or
above the prior progress is taken as emitted. -/
theorem progress_monotone_while_running (t : Task) (ps : List Int)
    (hrun : t.status = .running) (h0 : 0 ≤ t.progress) (h1 : t.progress ≤ 100) :
    List.Chain' (· ≤ ·) (List.scanl clampProgress t.progress ps) ∧
    (∀ q ∈ List.scanl clampProgress t.progress ps, 0 ≤ q ∧ q ≤ 100) ∧
    (∀ p : Int, p ≤ t.progress → (emitProgress t p).progress = t.progress) ∧
    (∀ p : Int, 0 ≤ p → p ≤ 100 → t.progress ≤ p →
      (emitProgress t p).progress = p) := by
  refine ⟨chain'_scanl_clamp ps t.progress,
    scanl_clamp_mem_bounds ps t.progress h0 h1, ?_, ?_⟩
  · intro p hp
    simp [emitProgress, hrun, clampProgress]
    omega
  · intro p hp0 hp1 hp2
    simp [emitProgress, hrun, clampProgress]
    omega

/-- C2 witness: a running task at progress 40 keeps progress 40 when the
body emits the lower value 30. -/
theorem progress_monotone_while_running_witness :
    (emitProgress
        { id := 2, status := .running, progress := 40, cancelRequested := false }
        30).progress = 40 :=
  (progress_monotone_while_running _ [] rfl (by decide) (by decide)).2.2.1 30
    (by decide)

/-- A successful `open` call requires no open request for the task and
appends exactly one new waiting request. -/
lemma openRequest_ok {g g' : GateState} {r : HumanLoopRequest} {tid : Nat}
    {a : String} {args : List (String × String)} {allowed : List ResponseKind}
    (h : openRequest g tid a args allowed = .ok (g', r)) :
    hasOpen g tid = false ∧
    g'.requests = g.requests ++
      [{ id := g.nextId, taskId := tid, actionName := a, args := args,
         allowedResponses := allowed, status := .waiting }] := by
  by_cases hO : hasOpen g tid
  · simp [openRequest, hO] at h
  · simp [openRequest, hO] at h
    exact ⟨by simpa using hO, by rw [← h.1]⟩

/-- A successful `open` call leaves at most one open request for the
opened task and does not raise any other task's open-request count. -/
lemma openCount_openRequest {g g' : GateState} {r : HumanLoopRequest} {tid : Nat}
    {a : String} {args : List (String × String)} {allowed : List ResponseKind}
    (h : openRequest g tid a args allowed = .ok (g', r)) (tid' : Nat) :
    openCount g' tid' ≤ max (openCount g tid') 1 := by
  obtain ⟨hO, hreq⟩ := openRequest_ok h
  unfold openCount
  rw [hreq, List.countP_append]
  by_cases htid : tid' = tid
  · subst htid
    have hzero : g.requests.countP
        (fun r => r.taskId == tid' && r.status == ReqStatus.waiting) = 0 := by
      rw [List.countP_eq_zero]
      intro x hx
      have := List.any_eq_false.mp hO x hx
      simpa using this
    simp [hzero, List.countP_cons]
  · have hnew : (List.countP
        (fun r : HumanLoopRequest => r.taskId == tid' && r.status == ReqStatus.waiting)
        ([{ id := g.nextId, taskId := tid, actionName := a, args := args,
            allowedResponses := allowed, status := ReqStatus.waiting }] :
          List HumanLoopRequest)) = 0 := by
      simp [List.countP_cons]
      omega
    rw [hnew]
    omega

/-- A successful `resolve` call never increases any task's open-request
count: it only moves one request `waiting → resolved`. -/
lemma openCount_resolveRequest {g g' : GateState} {rid : Nat} {k : ResponseKind}
    (h : resolveRequest g rid k = .ok g') (tid : Nat) :
    openCount g' tid ≤ openCount g tid := by
  unfold resolveRequest at h
  cases hf : g.requests.find? (fun r => r.id == rid && r.status == ReqStatus.waiting) with
  | none =>
    rw [hf] at h
    exact Except.noConfusion h
  | some r =>
    rw [hf] at h
    by_cases hk : k ∈ r.allowedResponses
    · simp only [hk, if_true] at h
      rw [Except.ok.injEq] at h
      subst h
      unfold openCount
      rw [List.countP_map]
      apply List.countP_mono_left
      intro q hq hpq
      simp only [Function.comp] at hpq
      by_cases hid : q.id == rid
      · simp [hid] at hpq
      · simpa [hid] using hpq
    · simp only [hk, if_false] at h
      exact Except.noConfusion h

/-- C5: every reachable gate state holds at most one open request per
task, and an `open` call for a task that already has an open request fails
with `Conflict`, creating no new request. -/
theorem gate_at_most_one_open (g : GateState) (h : GateReachable g) :
    (∀ tid, openCount g tid ≤ 1) ∧
    (∀ (tid : Nat) (a : String) (args : List (String × String))
      (allowed : List ResponseKind), hasOpen g tid = true →
      openRequest g tid a args allowed = .error .conflict) := by
  constructor
  · induction h with
    | init =>
      intro tid
      simp [openCount]
    | openStep hg hop ih =>
      intro tid
      have h1 := openCount_openRequest hop tid
      have h2 := ih tid
      omega
    | resolveStep hg hres ih =>
      intro tid
      exact le_trans (openCount_resolveRequest hres tid) (ih tid)
  · intro tid a args allowed hopen
    simp [openRequest, hopen]

/-- C5 witness: the gate reached by opening one request for task 5 has at
most one open request for it, and a second `open` for task 5 fails with
`Conflict`. -/
theorem gate_at_most_one_open_witness :
    openCount gExample 5 ≤ 1 ∧
    openRequest gExample 5 "again" [] [ResponseKind.accept]
      = .error .conflict := by
  have hre : GateReachable gExample :=
    GateReachable.openStep GateReachable.init rfl
  exact ⟨(gate_at_most_one_open gExample hre).1 5,
    (gate_at_most_one_open gExample hre).2 5 "again" [] [ResponseKind.accept]
      (by decide)⟩

/-- C6: resolving an open request with a kind outside its
`allowedResponses` fails with `InvalidResponseKind`, returns no successor
state, and the request stays `waiting`. -/
theorem resolve_invalid_kind (g : GateState) (rid : Nat) (kind : ResponseKind)
    (r : HumanLoopRequest)
    (hfind : g.requests.find?
      (fun q => q.id == rid && q.status == ReqStatus.waiting) = some r)
    (hk : kind ∉ r.allowedResponses) :
    resolveRequest g rid kind = .error .invalidResponseKind ∧
    r.status = .waiting ∧
    ∀ g' : GateState, resolveRequest g rid kind ≠ .ok g' := by
  have herr : resolveRequest g rid kind = .error .invalidResponseKind := by
    unfold resolveRequest
    rw [hfind]
    simp only [hk, if_false]
  refine ⟨herr, ?_, fun g' hok => by rw [herr] at hok; exact Except.noConfusion hok⟩
  have hp := List.find?_some hfind
  simp only [Bool.and_eq_true, beq_iff_eq] at hp
  exact hp.2

/-- C6 witness: resolving the concrete open request (which allows only
`accept`) with kind `ignore` fails with `InvalidResponseKind`. -/
theorem resolve_invalid_kind_witness :
    resolveRequest gExample 0 ResponseKind.ignore
      = .error .invalidResponseKind :=
  (resolve_invalid_kind gExample 0 ResponseKind.ignore rExample rfl
    (by decide)).1

end Serper
